import Mathlib

/-!
Verification of the microstellar transaction-lifecycle orchestrator
(`src/microstellar.go`) against its natural-language specification.

The orchestrator (`MicroStellar` handle, `getTx`, `signAndSubmit`, `Start`,
`Submit`, `Payload` and the per-operation methods) is translated directly
from `src/microstellar.go`.  The collaborators that the repository keeps in
other files (the transaction builder `Tx`, the `Options` bundle, address and
asset validation, the path resolver) are not under `src/`; they are modelled
from the specification and each such definition says so in its doc comment.

Network effects are made explicit: every orchestrator step returns, besides
the new handle state, the list of network events (transaction submissions
and read-only path-resolver queries) the call performed.  Go pointer
aliasing between the handle's open session transaction `ms.tx` and the
local `tx` variable of a method is mirrored by writing every mutation of
the builder back into the handle whenever a session is open (`storeTx`).
-/

/-- Errors produced by the client.  `msg` corresponds to `errors.Errorf`
(the format string with its arguments interpolated), `wrap` to
`errors.Wrapf` (an underlying cause plus a stage description). -/
inductive MsError where
  | msg (s : String)
  | wrap (inner : MsError) (s : String)
deriving DecidableEq, Repr

/-- Asset type discriminator.  Modelled from the spec: `asset.go` is not
under `src/`; the spec distinguishes the native asset from issued credit
assets. -/
inductive AssetType where
  | native
  | credit4
  | credit12
deriving DecidableEq, Repr

/-- Modelled from the spec: `asset.go` is not under `src/`.  An asset is an
immutable descriptor with a code, an issuer identifier and a type. -/
structure Asset where
  code : String
  issuer : String
  assetType : AssetType
deriving DecidableEq, Repr

/-- Modelled from the spec: seeds are distinguished by a fixed
single-character prefix (the source doc comment: seed strings start with
"S").  The embedded checksum of the real implementation is abstracted to
the prefix test. -/
def validSeed (s : String) : Bool := s.data.head? == some 'S'

/-- Modelled from the spec: addresses are distinguished by a fixed
single-character prefix (address strings start with "G"); checksum
abstracted as for `validSeed`. -/
def validAddress (s : String) : Bool := s.data.head? == some 'G'

/-- Modelled from the spec: an input is address-or-seed valid if it matches
either form (`ValidAddressOrSeed` in the repository's utils). -/
def ValidAddressOrSeed (s : String) : Bool := validAddress s || validSeed s

/-- Modelled from the spec: the native asset constant (`NativeAsset`). -/
def NativeAsset : Asset := { code := "XLM", issuer := "", assetType := .native }

/-- Whether the asset is the native asset. -/
def Asset.isNative (a : Asset) : Bool := a.assetType = AssetType.native

/-- Modelled from the spec: asset validation requires a non-empty code and
a valid issuer identifier when non-native (`Asset.Validate`). -/
def Asset.validate (a : Asset) : Option MsError :=
  if a.assetType = AssetType.native then none
  else if a.code = "" then some (.msg "invalid asset: no code")
  else if !validAddress a.issuer then some (.msg "invalid asset: bad issuer")
  else none

/-- Modelled from the spec: one candidate conversion route returned by the
path resolver: an ordered list of intermediate assets plus amounts. -/
structure PathResult where
  hops : List Asset
  sourceAmount : String
  destinationAmount : String
deriving DecidableEq, Repr

/-- Modelled from the spec: `options.go` is not under `src/`.  The options
bundle carries additional signers, a memo, the multi-op marker with its
transaction source account, and the path-payment parameters used by `Pay`
(`sendAsset`, `maxAmount`, explicit hop list `path`, and `sourceAddress`
for automatic path discovery). -/
structure Options where
  signers : List String := []
  memoText : String := ""
  isMultiOp : Bool := false
  multiOpSource : String := ""
  sendAsset : Option Asset := none
  maxAmount : String := ""
  path : List Asset := []
  sourceAddress : String := ""
deriving DecidableEq, Repr

/-- Modelled from the spec: `Opts()` returns a bundle with all fields at
their empty defaults. -/
def Opts : Options := {}

/-- Modelled from the spec: `mergeOptions` folds the variadic options
argument into one bundle; only the first supplied bundle is honored, and an
absent argument yields the defaults. -/
def mergeOptions (options : List Options) : Options :=
  match options with
  | o :: _ => o
  | [] => Opts

/-- Modelled from the spec: `Options.MultiOp(source)` marks the bundle as
opening a multi-operation transaction whose fee source account is
`source`. -/
def Options.MultiOp (o : Options) (source : String) : Options :=
  { o with isMultiOp := true, multiOpSource := source }

/-- One ledger operation, as constructed by the per-operation methods of
`src/microstellar.go` (the `build.*` mutators passed to `tx.Build`). -/
inductive Operation where
  | createAccount (dest : String) (amount : String)
  | payment (dest : String) (asset : Asset) (amount : String)
  | pathPayment (dest : String) (asset : Asset) (amount : String)
      (sendAsset : Asset) (maxAmount : String) (hops : List Asset)
  | trust (code : String) (issuer : String) (limit : Option String)
  | removeTrust (code : String) (issuer : String)
  | allowTrust (address : String) (assetCode : String) (authorized : Bool)
  | masterWeight (weight : Nat)
  | setFlags (flags : Int)
  | clearFlags (flags : Int)
  | homeDomain (domain : String)
  | addSigner (address : String) (weight : Nat)
  | removeSigner (address : String)
  | setThresholds (low : Nat) (medium : Nat) (high : Nat)
  | setData (key : String) (val : List UInt8)
  | clearData (key : String)
deriving DecidableEq, Repr

/-- An operation together with its per-operation source account, as passed
to `tx.Build(sourceAccount(src), op)` in the source. -/
structure BuiltOp where
  source : String
  op : Operation
deriving DecidableEq, Repr

/-- The structured response captured from a submission. -/
structure TxResponse where
  ledger : Nat
deriving DecidableEq, Repr

/-- A network side effect performed by an orchestrator step: a transaction
submission (the envelope's operations in order together with the applied
signatures), or a read-only path-resolver query. -/
inductive NetEvent where
  | submission (ops : List BuiltOp) (signatures : List String)
  | pathQuery (sourceAddress : String) (destAddress : String)
deriving DecidableEq, Repr

/-- Whether the event is a transaction submission. -/
def NetEvent.isSubmission : NetEvent → Bool
  | .submission _ _ => true
  | .pathQuery _ _ => false

/-- Modelled from the spec: `tx.go` is not under `src/`.  The transaction
builder owns one envelope: it accumulates operations in call order,
carries the applied options bundle, the multi-op marker with the session's
fee-source account, and the post-signing and post-submission result state
(signatures, response, error). -/
structure Tx where
  networkName : String
  fake : Bool
  isMultiOp : Bool := false
  multiOpSource : String := ""
  options : Option Options := none
  ops : List BuiltOp := []
  signatures : List String := []
  submitted : Bool := false
  response : Option TxResponse := none
  err : Option MsError := none
deriving DecidableEq, Repr

/-- `NewTx(networkName, params)`: a fresh builder bound to the network. -/
def newTx (networkName : String) : Tx :=
  { networkName := networkName, fake := networkName == "fake" }

/-- Modelled from the spec: `Tx.SetOptions` applies an options bundle to
the builder.  A multi-op bundle establishes the session marker and its
transaction source account; a plain bundle leaves an established session
marker in place (the multi-op designation is made at session start). -/
def Tx.setOptions (tx : Tx) (o : Options) : Tx :=
  { tx with
    options := some o,
    isMultiOp := tx.isMultiOp || o.isMultiOp,
    multiOpSource := if o.isMultiOp then o.multiOpSource else tx.multiOpSource }

/-- Modelled from the spec: `Tx.WithOptions` is `SetOptions` returning the
builder for chaining. -/
def Tx.withOptions (tx : Tx) (o : Options) : Tx := tx.setOptions o

/-- Modelled from the spec: `Tx.Build(sourceAccount(src), op)` appends one
operation to the envelope, in call order, when the builder is not already
in an error state. -/
def Tx.build (tx : Tx) (source : String) (op : Operation) : Tx :=
  if tx.err.isSome then tx
  else { tx with ops := tx.ops ++ [⟨source, op⟩] }

/-- The signer context the builder signs with: the options' signers when at
least one was supplied; otherwise, for a session transaction, the session's
source account bound at `Start`; otherwise the keys passed by the caller.
Modelled from the spec (options-merger signer asymmetry and the session
signer context). -/
def Tx.optSigners (tx : Tx) : List String :=
  (tx.options.map Options.signers).getD []

/-- The effective signer context, see the doc comment above
`Tx.optSigners`. -/
def Tx.signerContext (tx : Tx) (keys : List String) : List String :=
  if tx.optSigners ≠ [] then tx.optSigners
  else if tx.isMultiOp then [tx.multiOpSource]
  else keys

/-- Modelled from the spec: `Tx.Sign` hashes the envelope and signs with
every signer in the signer context; signing with a non-seed (a public
address cannot produce a signature) fails and records the error on the
builder. -/
def Tx.sign (tx : Tx) (keys : List String) : Tx :=
  if tx.err.isSome then tx
  else
    let ks := tx.signerContext keys
    if ks.all validSeed then { tx with signatures := ks }
    else { tx with err := some (.msg "sign error: cannot sign with a non-seed") }

/-- Modelled from the spec: `Tx.Submit` sends the signed envelope to the
network (one submission event carrying the operations in order and the
applied signatures) and captures the response; a builder already in an
error state submits nothing. -/
def Tx.submit (tx : Tx) : Tx × List NetEvent :=
  if tx.err.isSome then (tx, [])
  else
    ({ tx with submitted := true, response := some { ledger := 1 } },
     [NetEvent.submission tx.ops tx.signatures])

/-- Modelled from the spec: `Tx.Payload` signs the accumulated operations
and produces the encoded payload without submitting.  The encoding itself
is outside the model; the payload string is a marker. -/
def Tx.payloadOf (tx : Tx) : Option String × Tx :=
  let tx := tx.sign []
  match tx.err with
  | some _ => (none, tx)
  | none => (some "XDR", tx)

/-- `Tx.Err()`: the error recorded on the builder. -/
def Tx.ErrOf (tx : Tx) : Option MsError := tx.err

/-- `Tx.Response()`: the response recorded on the builder. -/
def Tx.ResponseOf (tx : Tx) : Option TxResponse := tx.response

/-- Network connection parameters (`Params`): only the url and passphrase
strings are ever read from it, so it is modelled as a list of string
pairs. -/
def Params := List (String × String)

/-- The user handle to the network (`MicroStellar` in the source): network
binding, the optional open multi-op transaction, the last completed
transaction and the last error. -/
structure MicroStellar where
  networkName : String
  fake : Bool
  tx : Option Tx := none
  lastTx : Option Tx := none
  lastErr : Option MsError := none
deriving DecidableEq, Repr

/-- `New(networkName, params...)` from the source: a fresh handle with no
open transaction; the network named "fake" is the simulated network. -/
def New (networkName : String) (_params : List Params) : MicroStellar :=
  { networkName := networkName, fake := networkName == "fake" }

/-- The result of one orchestrator step: the new handle state, the network
events the call performed, and the returned error. -/
structure StepResult where
  ms : MicroStellar
  events : List NetEvent
  err : Option MsError
deriving DecidableEq, Repr

/-- `getTx` from the source: the open session transaction when one exists,
otherwise a fresh builder. -/
def MicroStellar.getTx (ms : MicroStellar) : Tx :=
  match ms.tx with
  | some tx => tx
  | none => newTx ms.networkName

/-- Mirrors Go pointer aliasing: inside an open session the local `tx` of a
method is the very object `ms.tx` points at, so every mutation of it is
immediately visible through the handle.  With no open session the local
builder is independent of the handle. -/
def MicroStellar.storeTx (ms : MicroStellar) (tx : Tx) : MicroStellar :=
  match ms.tx with
  | some _ => { ms with tx := some tx }
  | none => ms

/-- `ms.err(e)` from the source: record `e` as the last error and return
it.  (`success()` is the `none` case.) -/
def MicroStellar.setErr (ms : MicroStellar) (e : Option MsError) : MicroStellar :=
  { ms with lastErr := e }

/-- An error return through `ms.errorf` or `ms.wrapf`: the last error is
set and the call performs no network event. -/
def MicroStellar.errStep (ms : MicroStellar) (e : MsError) : StepResult :=
  { ms := ms.setErr (some e), events := [], err := some e }

/-- An error return after some network events already happened (a failed
path query inside `Pay`). -/
def MicroStellar.errStepEv (ms : MicroStellar) (events : List NetEvent) (e : MsError) : StepResult :=
  { ms := ms.setErr (some e), events := events, err := some e }

/-- `Err()` from the source: the last error on the handle. -/
def MicroStellar.Err (ms : MicroStellar) : Option MsError := ms.lastErr

/-- `Response()` from the source: `return ms.lastTx.Response()`.  The
dereference of `lastTx` has no nil check; the outer `none` models the
nil-pointer fault on a handle whose last transaction was never set. -/
def MicroStellar.Response (ms : MicroStellar) : Option (Option TxResponse) :=
  ms.lastTx.map Tx.ResponseOf

/-- `signAndSubmit(tx, signers...)` from the source: for a non-session
transaction, sign with the given signers and submit; in either case save
the transaction as the last transaction and record its error as the last
error. -/
def MicroStellar.signAndSubmit (ms : MicroStellar) (tx : Tx) (signers : List String) : StepResult :=
  let step : Tx × List NetEvent × MicroStellar :=
    if !tx.isMultiOp then
      let tx := tx.sign signers
      let ms := ms.storeTx tx
      let (tx, ev) := tx.submit
      let ms := ms.storeTx tx
      (tx, ev, ms)
    else (tx, [], ms)
  let tx := step.1
  let ms := step.2.2
  let ms := { ms with lastTx := some tx }
  let ms := ms.setErr tx.ErrOf
  { ms := ms, events := step.2.1, err := tx.ErrOf }

/-- `Start(sourceSeed, options...)` from the source: installs a fresh
builder carrying the merged options marked multi-op with `sourceSeed`, and
returns the handle.  (The source neither checks for an already-open
session nor touches the last-error field.) -/
def MicroStellar.Start (ms : MicroStellar) (sourceSeed : String) (options : List Options) : MicroStellar :=
  { ms with tx := some ((newTx ms.networkName).withOptions ((mergeOptions options).MultiOp sourceSeed)) }

/-- `Submit()` from the source: errors unless the current transaction is a
multi-op session; otherwise signs with the session signer context, submits,
saves the last transaction, clears the session and records the error. -/
def MicroStellar.Submit (ms : MicroStellar) : StepResult :=
  let tx := ms.getTx
  if !tx.isMultiOp then
    ms.errStep (.msg "cannot submit, not a multi-op transaction")
  else
    let tx := tx.sign []
    let (tx, ev) := tx.submit
    let ms := { ms with lastTx := some tx, tx := none }
    let ms := ms.setErr tx.ErrOf
    { ms := ms, events := ev, err := tx.ErrOf }

/-- The result of `Payload()`: the payload string, the new handle state,
the events (none) and the returned error. -/
structure PayloadResult where
  payload : String
  ms : MicroStellar
  events : List NetEvent
  err : Option MsError
deriving DecidableEq, Repr

/-- `Payload()` from the source: errors unless the current transaction is a
multi-op session; otherwise signs and encodes the accumulated operations
without submitting, saves the last transaction, clears the session and
records the error. -/
def MicroStellar.Payload (ms : MicroStellar) : PayloadResult :=
  let tx := ms.getTx
  if !tx.isMultiOp then
    { payload := "", ms := ms.setErr (some (.msg "cannot generate payload, Start not called")),
      events := [], err := some (.msg "cannot generate payload, Start not called") }
  else
    let (payload, tx) := tx.payloadOf
    let ms := { ms with lastTx := some tx, tx := none }
    let ms := ms.setErr tx.ErrOf
    { payload := payload.getD "", ms := ms, events := [], err := tx.ErrOf }

/-- The `if len(options) > 0 then tx.SetOptions(options[0])` pattern shared
by every operation method; the mutation is visible through the handle when
a session is open. -/
def MicroStellar.applyFirstOptions (ms : MicroStellar) (tx : Tx) (options : List Options) : Tx × MicroStellar :=
  match options with
  | o :: _ =>
      let tx := tx.setOptions o
      (tx, ms.storeTx tx)
  | [] => (tx, ms)

/-- The common tail of every operation method: `tx.Build(sourceAccount(src), op)`
followed by `ms.signAndSubmit(tx, src)`. -/
def MicroStellar.opTail (ms : MicroStellar) (tx : Tx) (source : String) (op : Operation) : StepResult :=
  let tx := tx.build source op
  let ms := ms.storeTx tx
  ms.signAndSubmit tx [source]

/-- The body shared by the uniform operation methods of the source once
their argument validation has passed: obtain the active builder
(`getTx`), apply the first options bundle when one was supplied, build the
single operation and hand off to `signAndSubmit`. -/
def MicroStellar.stdOp (ms : MicroStellar) (source : String) (options : List Options)
    (op : Operation) : StepResult :=
  let tx := ms.getTx
  let (tx, ms) := ms.applyFirstOptions tx options
  ms.opTail tx source op

/-- `FundAccount` from the source. -/
def MicroStellar.FundAccount (ms : MicroStellar) (sourceSeed : String) (addressOrSeed : String)
    (amount : String) (options : List Options) : StepResult :=
  if !ValidAddressOrSeed sourceSeed then
    ms.errStep (.msg ("invalid source address or seed: " ++ sourceSeed))
  else if !ValidAddressOrSeed addressOrSeed then
    ms.errStep (.msg ("invalid target address or seed: " ++ addressOrSeed))
  else
    ms.stdOp sourceSeed options (.createAccount addressOrSeed amount)

/-- The path resolver interface.  Modelled from the spec: `FindPaths` lives
outside `src/`; it queries the network with (source address, destination
address, destination asset, destination amount, send asset, max send
amount) and returns an ordered list of candidate routes or an error. -/
def PathResolver : Type :=
  String → String → Asset → String → Asset → String → Except MsError (List PathResult)

/-- `Pay` from the source: validates the asset and both endpoints, then for
a path payment (options carry a send asset) either uses the explicit hop
list verbatim or queries the path resolver and uses the first candidate's
hops; builds one payment operation and hands it to `signAndSubmit`.  The
resolver's answer is supplied as the `resolver` argument; consulting it is
recorded as a read-only `pathQuery` event. -/
def MicroStellar.Pay (ms : MicroStellar) (sourceAddressOrSeed : String) (targetAddress : String)
    (amount : String) (asset : Asset) (options : List Options) (resolver : PathResolver) : StepResult :=
  match asset.validate with
  | some e => ms.errStep (.wrap e "cannot pay")
  | none =>
  if !ValidAddressOrSeed sourceAddressOrSeed then
    ms.errStep (.msg ("cannot pay: invalid source address or seed: " ++ sourceAddressOrSeed))
  else if !ValidAddressOrSeed targetAddress then
    ms.errStep (.msg ("cannot pay: invalid address: " ++ targetAddress))
  else
    let tx := ms.getTx
    match options with
    | [] => ms.opTail tx sourceAddressOrSeed (.payment targetAddress asset amount)
    | opts :: _ =>
      let tx := tx.setOptions opts
      let ms := ms.storeTx tx
      match opts.sendAsset with
      | none => ms.opTail tx sourceAddressOrSeed (.payment targetAddress asset amount)
      | some sendAsset =>
        if opts.path ≠ [] then
          ms.opTail tx sourceAddressOrSeed
            (.pathPayment targetAddress asset amount sendAsset opts.maxAmount opts.path)
        else if !validAddress opts.sourceAddress then
          ms.errStep (.wrap (.msg "invalid address") ("not a valid source address: " ++ opts.sourceAddress))
        else
          let query := NetEvent.pathQuery opts.sourceAddress targetAddress
          match resolver opts.sourceAddress targetAddress asset amount sendAsset opts.maxAmount with
          | .error e => ms.errStepEv [query] (.wrap e "path finding error")
          | .ok paths =>
            match paths with
            | [] => ms.errStepEv [query]
                (.msg ("no paths found from " ++ sendAsset.code ++ " to " ++ asset.code))
            | p :: _ =>
              let r := ms.opTail tx sourceAddressOrSeed
                (.pathPayment targetAddress asset amount sendAsset opts.maxAmount p.hops)
              { r with events := query :: r.events }

/-- `PayNative` from the source. -/
def MicroStellar.PayNative (ms : MicroStellar) (sourceSeed : String) (targetAddress : String)
    (amount : String) (options : List Options) (resolver : PathResolver) : StepResult :=
  ms.Pay sourceSeed targetAddress amount NativeAsset options resolver

/-- `CreateTrustLine` from the source. -/
def MicroStellar.CreateTrustLine (ms : MicroStellar) (sourceSeed : String) (asset : Asset)
    (limit : String) (options : List Options) : StepResult :=
  if !ValidAddressOrSeed sourceSeed then
    ms.errStep (.msg ("cannot create trust line: invalid source address or seed: " ++ sourceSeed))
  else match asset.validate with
  | some e => ms.errStep (.wrap e "cannot create trust line")
  | none =>
    if limit == "" then
      ms.stdOp sourceSeed options (.trust asset.code asset.issuer none)
    else
      ms.stdOp sourceSeed options (.trust asset.code asset.issuer (some limit))

/-- `RemoveTrustLine` from the source. -/
def MicroStellar.RemoveTrustLine (ms : MicroStellar) (sourceSeed : String) (asset : Asset)
    (options : List Options) : StepResult :=
  if !ValidAddressOrSeed sourceSeed then
    ms.errStep (.msg ("cannot remove trust line: invalid source address or seed: " ++ sourceSeed))
  else match asset.validate with
  | some e => ms.errStep (.wrap e "cannot remove trust line")
  | none =>
    ms.stdOp sourceSeed options (.removeTrust asset.code asset.issuer)

/-- `AllowTrust` from the source. -/
def MicroStellar.AllowTrust (ms : MicroStellar) (sourceSeed : String) (address : String)
    (assetCode : String) (authorized : Bool) (options : List Options) : StepResult :=
  if !ValidAddressOrSeed sourceSeed then
    ms.errStep (.msg ("cannot authorize trust line: invalid source address or seed: " ++ sourceSeed))
  else if !validAddress address then
    ms.errStep (.msg ("cannot authorize trust line: invalid account address: " ++ address))
  else
    ms.stdOp sourceSeed options (.allowTrust address assetCode authorized)

/-- `SetMasterWeight` from the source. -/
def MicroStellar.SetMasterWeight (ms : MicroStellar) (sourceSeed : String) (weight : Nat)
    (options : List Options) : StepResult :=
  if !ValidAddressOrSeed sourceSeed then
    ms.errStep (.msg ("cannot set master weight: invalid source address or seed: " ++ sourceSeed))
  else
    ms.stdOp sourceSeed options (.masterWeight weight)

/-- `SetFlags` from the source. -/
def MicroStellar.SetFlags (ms : MicroStellar) (sourceSeed : String) (flags : Int)
    (options : List Options) : StepResult :=
  if !ValidAddressOrSeed sourceSeed then
    ms.errStep (.msg ("cannot set flags: invalid source address or seed: " ++ sourceSeed))
  else
    ms.stdOp sourceSeed options (.setFlags flags)

/-- `ClearFlags` from the source. -/
def MicroStellar.ClearFlags (ms : MicroStellar) (sourceSeed : String) (flags : Int)
    (options : List Options) : StepResult :=
  if !ValidAddressOrSeed sourceSeed then
    ms.errStep (.msg ("cannot clear flags: invalid source address or seed: " ++ sourceSeed))
  else
    ms.stdOp sourceSeed options (.clearFlags flags)

/-- `SetHomeDomain` from the source. -/
def MicroStellar.SetHomeDomain (ms : MicroStellar) (sourceSeed : String) (domain : String)
    (options : List Options) : StepResult :=
  if !ValidAddressOrSeed sourceSeed then
    ms.errStep (.msg ("cannot set home domain: invalid source address or seed: " ++ sourceSeed))
  else
    ms.stdOp sourceSeed options (.homeDomain domain)

/-- `AddSigner` from the source. -/
def MicroStellar.AddSigner (ms : MicroStellar) (sourceSeed : String) (signerAddress : String)
    (signerWeight : Nat) (options : List Options) : StepResult :=
  if !ValidAddressOrSeed sourceSeed then
    ms.errStep (.msg ("cannot add signer: invalid source address or seed: " ++ sourceSeed))
  else if !ValidAddressOrSeed signerAddress then
    ms.errStep (.msg ("cannot add signer: invalid signer address or seed: " ++ signerAddress))
  else
    ms.stdOp sourceSeed options (.addSigner signerAddress signerWeight)

/-- `RemoveSigner` from the source. -/
def MicroStellar.RemoveSigner (ms : MicroStellar) (sourceSeed : String) (signerAddress : String)
    (options : List Options) : StepResult :=
  if !ValidAddressOrSeed sourceSeed then
    ms.errStep (.msg ("cannot remove signer: invalid source address or seed: " ++ sourceSeed))
  else if !ValidAddressOrSeed signerAddress then
    ms.errStep (.msg ("cannot remove signer: invalid signer address or seed: " ++ signerAddress))
  else
    ms.stdOp sourceSeed options (.removeSigner signerAddress)

/-- `SetThresholds` from the source. -/
def MicroStellar.SetThresholds (ms : MicroStellar) (sourceSeed : String) (low medium high : Nat)
    (options : List Options) : StepResult :=
  if !ValidAddressOrSeed sourceSeed then
    ms.errStep (.msg ("cannot set thresholds: invalid source address or seed: " ++ sourceSeed))
  else
    ms.stdOp sourceSeed options (.setThresholds low medium high)

/-- `SetData` from the source: the options bundle is applied to the builder
before the key and value length checks run. -/
def MicroStellar.SetData (ms : MicroStellar) (sourceSeed : String) (key : String)
    (val : List UInt8) (options : List Options) : StepResult :=
  if !ValidAddressOrSeed sourceSeed then
    ms.errStep (.msg ("cannot set thresholds: invalid source address or seed: " ++ sourceSeed))
  else
    let tx := ms.getTx
    let (tx, ms) := ms.applyFirstOptions tx options
    if key == "" then
      ms.errStep (.msg "data key must not be empty")
    else if key.utf8ByteSize > 64 then
      ms.errStep (.msg ("data key must be under 64 bytes: " ++ key))
    else if val.length > 64 then
      ms.errStep (.msg "data value must be under 64 bytes")
    else
      ms.opTail tx sourceSeed (.setData key val)

/-- `ClearData` from the source: the options bundle is applied to the
builder before the key length check runs; the empty key is not rejected
here. -/
def MicroStellar.ClearData (ms : MicroStellar) (sourceSeed : String) (key : String)
    (options : List Options) : StepResult :=
  if !ValidAddressOrSeed sourceSeed then
    ms.errStep (.msg ("cannot set thresholds: invalid source address or seed: " ++ sourceSeed))
  else
    let tx := ms.getTx
    let (tx, ms) := ms.applyFirstOptions tx options
    if key.utf8ByteSize > 64 then
      ms.errStep (.msg ("data key must be under 64 bytes: " ++ key))
    else
      ms.opTail tx sourceSeed (.clearData key)

/-- One invocation of a public mutating operation method, with its
arguments.  Used to quantify over all the operation methods of the
orchestrator at once. -/
inductive OpCall where
  | fundAccount (source target amount : String) (options : List Options)
  | pay (source target amount : String) (asset : Asset) (options : List Options) (resolver : PathResolver)
  | createTrustLine (source : String) (asset : Asset) (limit : String) (options : List Options)
  | removeTrustLine (source : String) (asset : Asset) (options : List Options)
  | allowTrust (source address assetCode : String) (authorized : Bool) (options : List Options)
  | setMasterWeight (source : String) (weight : Nat) (options : List Options)
  | setFlags (source : String) (flags : Int) (options : List Options)
  | clearFlags (source : String) (flags : Int) (options : List Options)
  | setHomeDomain (source domain : String) (options : List Options)
  | addSigner (source signer : String) (weight : Nat) (options : List Options)
  | removeSigner (source signer : String) (options : List Options)
  | setThresholds (source : String) (low medium high : Nat) (options : List Options)
  | setData (source key : String) (val : List UInt8) (options : List Options)
  | clearData (source key : String) (options : List Options)

/-- Dispatch one operation invocation to the corresponding method. -/
def runCall (ms : MicroStellar) : OpCall → StepResult
  | .fundAccount s t a o => ms.FundAccount s t a o
  | .pay s t a asset o r => ms.Pay s t a asset o r
  | .createTrustLine s asset l o => ms.CreateTrustLine s asset l o
  | .removeTrustLine s asset o => ms.RemoveTrustLine s asset o
  | .allowTrust s addr code auth o => ms.AllowTrust s addr code auth o
  | .setMasterWeight s w o => ms.SetMasterWeight s w o
  | .setFlags s f o => ms.SetFlags s f o
  | .clearFlags s f o => ms.ClearFlags s f o
  | .setHomeDomain s d o => ms.SetHomeDomain s d o
  | .addSigner s sg w o => ms.AddSigner s sg w o
  | .removeSigner s sg o => ms.RemoveSigner s sg o
  | .setThresholds s l m h o => ms.SetThresholds s l m h o
  | .setData s k v o => ms.SetData s k v o
  | .clearData s k o => ms.ClearData s k o

/-- The options bundles supplied with the invocation. -/
def OpCall.bundles : OpCall → List Options
  | .fundAccount _ _ _ o => o
  | .pay _ _ _ _ o _ => o
  | .createTrustLine _ _ _ o => o
  | .removeTrustLine _ _ o => o
  | .allowTrust _ _ _ _ o => o
  | .setMasterWeight _ _ o => o
  | .setFlags _ _ o => o
  | .clearFlags _ _ o => o
  | .setHomeDomain _ _ o => o
  | .addSigner _ _ _ o => o
  | .removeSigner _ _ o => o
  | .setThresholds _ _ _ _ o => o
  | .setData _ _ _ o => o
  | .clearData _ _ o => o

/-- Whether a `Pay` invocation gets past its path-payment logic: either it
is not a path payment, or it carries an explicit hop list, or the resolver
is consulted successfully and returns at least one candidate. -/
def payPathOk (target : String) (asset : Asset) (amount : String)
    (options : List Options) (resolver : PathResolver) : Bool :=
  match options with
  | [] => true
  | o :: _ =>
    match o.sendAsset with
    | none => true
    | some sa =>
      if o.path ≠ [] then true
      else
        validAddress o.sourceAddress &&
        match resolver o.sourceAddress target asset amount sa o.maxAmount with
        | .ok (_ :: _) => true
        | _ => false

/-- Whether the invocation passes all local validation of its method, so
that it reaches the shared build-and-hand-off tail. -/
def OpCall.ok : OpCall → Bool
  | .fundAccount s t _ _ => ValidAddressOrSeed s && ValidAddressOrSeed t
  | .pay s t a asset o r =>
      (asset.validate == none) && ValidAddressOrSeed s && ValidAddressOrSeed t &&
      payPathOk t asset a o r
  | .createTrustLine s asset _ _ => ValidAddressOrSeed s && (asset.validate == none)
  | .removeTrustLine s asset _ => ValidAddressOrSeed s && (asset.validate == none)
  | .allowTrust s addr _ _ _ => ValidAddressOrSeed s && validAddress addr
  | .setMasterWeight s _ _ => ValidAddressOrSeed s
  | .setFlags s _ _ => ValidAddressOrSeed s
  | .clearFlags s _ _ => ValidAddressOrSeed s
  | .setHomeDomain s _ _ => ValidAddressOrSeed s
  | .addSigner s sg _ _ => ValidAddressOrSeed s && ValidAddressOrSeed sg
  | .removeSigner s sg _ => ValidAddressOrSeed s && ValidAddressOrSeed sg
  | .setThresholds s _ _ _ _ => ValidAddressOrSeed s
  | .setData s k v _ =>
      ValidAddressOrSeed s && !(k == "") && !(k.utf8ByteSize > 64) && !(v.length > 64)
  | .clearData s k _ => ValidAddressOrSeed s && !(k.utf8ByteSize > 64)

/-- The single operation (with its per-operation source account) an
invocation that passes validation appends to the builder. -/
def OpCall.builtOp : OpCall → BuiltOp
  | .fundAccount s t a _ => ⟨s, .createAccount t a⟩
  | .pay s t a asset o r =>
    match o with
    | [] => ⟨s, .payment t asset a⟩
    | opts :: _ =>
      match opts.sendAsset with
      | none => ⟨s, .payment t asset a⟩
      | some sa =>
        if opts.path ≠ [] then ⟨s, .pathPayment t asset a sa opts.maxAmount opts.path⟩
        else
          match r opts.sourceAddress t asset a sa opts.maxAmount with
          | .ok (p :: _) => ⟨s, .pathPayment t asset a sa opts.maxAmount p.hops⟩
          | _ => ⟨s, .payment t asset a⟩
  | .createTrustLine s asset limit _ =>
      ⟨s, .trust asset.code asset.issuer (if limit == "" then none else some limit)⟩
  | .removeTrustLine s asset _ => ⟨s, .removeTrust asset.code asset.issuer⟩
  | .allowTrust s addr code auth _ => ⟨s, .allowTrust addr code auth⟩
  | .setMasterWeight s w _ => ⟨s, .masterWeight w⟩
  | .setFlags s f _ => ⟨s, .setFlags f⟩
  | .clearFlags s f _ => ⟨s, .clearFlags f⟩
  | .setHomeDomain s d _ => ⟨s, .homeDomain d⟩
  | .addSigner s sg w _ => ⟨s, .addSigner sg w⟩
  | .removeSigner s sg _ => ⟨s, .removeSigner sg⟩
  | .setThresholds s l m h _ => ⟨s, .setThresholds l m h⟩
  | .setData s k v _ => ⟨s, .setData k v⟩
  | .clearData s k _ => ⟨s, .clearData k⟩

/-- Run a list of operation invocations in order, collecting all network
events. -/
def runCalls (ms : MicroStellar) : List OpCall → MicroStellar × List NetEvent
  | [] => (ms, [])
  | c :: rest =>
      let r := runCall ms c
      let (ms2, evs) := runCalls r.ms rest
      (ms2, r.events ++ evs)

theorem getTx_of_some (ms : MicroStellar) (t : Tx) (h : ms.tx = some t) :
    ms.getTx = t := by
  simp [MicroStellar.getTx, h]

theorem storeTx_of_some (ms : MicroStellar) (t tx : Tx) (h : ms.tx = some t) :
    ms.storeTx tx = { ms with tx := some tx } := by
  simp [MicroStellar.storeTx, h]

theorem opTail_session (ms : MicroStellar) (tx : Tx) (src : String) (op : Operation)
    (t : Tx) (ht : ms.tx = some t) (hm : tx.isMultiOp = true) (he : tx.err = none) :
    ms.opTail tx src op =
      { ms := { ms with tx := some (tx.build src op), lastTx := some (tx.build src op), lastErr := none },
        events := [], err := none } := by
  have hb : tx.build src op = { tx with ops := tx.ops ++ [⟨src, op⟩] } := by
    simp [Tx.build, he]
  simp [MicroStellar.opTail, MicroStellar.signAndSubmit, hb, hm, he,
        MicroStellar.storeTx, ht, MicroStellar.setErr, Tx.ErrOf]

theorem Tx.build_err_none (tx : Tx) (s : String) (op : Operation) (he : tx.err = none) :
    tx.build s op = { tx with ops := tx.ops ++ [⟨s, op⟩] } := by
  simp [Tx.build, he]

theorem applyFirst_session (ms : MicroStellar) (t : Tx) (options : List Options)
    (ht : ms.tx = some t) (hos : t.optSigners = [])
    (hsig : ∀ o ∈ options, o.signers = []) (hmo : ∀ o ∈ options, o.isMultiOp = false) :
    ∃ t2, ms.applyFirstOptions t options = (t2, { ms with tx := some t2 }) ∧
      t2.isMultiOp = t.isMultiOp ∧ t2.err = t.err ∧
      t2.multiOpSource = t.multiOpSource ∧ t2.optSigners = [] ∧ t2.ops = t.ops := by
  cases options with
  | nil =>
      refine ⟨t, ?_, rfl, rfl, rfl, hos, rfl⟩
      have : ({ ms with tx := some t } : MicroStellar) = ms := by
        cases ms; simp_all
      simp [MicroStellar.applyFirstOptions, this]
  | cons o rest =>
      have h1 : o.signers = [] := hsig o (by simp)
      have h2 : o.isMultiOp = false := hmo o (by simp)
      refine ⟨t.setOptions o, ?_, ?_, rfl, ?_, ?_, rfl⟩ <;>
        simp [MicroStellar.applyFirstOptions, MicroStellar.storeTx, ht, Tx.setOptions,
              h1, h2, Tx.optSigners]

theorem stdOp_session (ms : MicroStellar) (src s : String) (options : List Options) (op : Operation)
    (t : Tx) (ht : ms.tx = some t) (hm : t.isMultiOp = true) (he : t.err = none)
    (hsrc : t.multiOpSource = src) (hos : t.optSigners = [])
    (hsig : ∀ o ∈ options, o.signers = []) (hmo : ∀ o ∈ options, o.isMultiOp = false) :
    ∃ t2, (ms.stdOp s options op).ms.tx = some t2 ∧
      t2.isMultiOp = true ∧ t2.err = none ∧ t2.multiOpSource = src ∧
      t2.optSigners = [] ∧ t2.ops = t.ops ++ [⟨s, op⟩] ∧
      (ms.stdOp s options op).events = [] ∧ (ms.stdOp s options op).err = none ∧
      (ms.stdOp s options op).ms.lastErr = none := by
  obtain ⟨t1, happ, hm1, he1, hsrc1, hos1, hops1⟩ :=
    applyFirst_session ms t options ht hos hsig hmo
  have hm1t : t1.isMultiOp = true := hm1.trans hm
  have he1t : t1.err = none := he1.trans he
  have hT := opTail_session { ms with tx := some t1 } t1 s op t1 (by simp) hm1t he1t
  have hgt : ms.getTx = t := getTx_of_some ms t ht
  have hbuild := Tx.build_err_none t1 s op he1t
  refine ⟨t1.build s op, ?_, ?_, ?_, ?_, ?_, ?_, ?_, ?_, ?_⟩ <;>
    simp [MicroStellar.stdOp, hgt, happ, hT, hbuild, hm1t, he1t, hsrc1, hsrc,
          Tx.optSigners, hops1] <;>
    simp [Tx.optSigners] at hos1 <;> simp [hos1]

/-- The state of an open multi-op session on the handle: an open builder
marked multi-op, error-free, whose session source account is `src`, with no
custom option signers, holding exactly the operations `acc` in order. -/
def SessionInv (src : String) (acc : List BuiltOp) (ms : MicroStellar) : Prop :=
  ∃ t : Tx, ms.tx = some t ∧ t.isMultiOp = true ∧ t.err = none ∧
    t.multiOpSource = src ∧ t.optSigners = [] ∧ t.ops = acc

/-- A successful in-session step: the session invariant advanced to `acc`,
no submission events, no error returned and the last error cleared. -/
def StepOk (src : String) (acc : List BuiltOp) (r : StepResult) : Prop :=
  SessionInv src acc r.ms ∧ (∀ e ∈ r.events, e.isSubmission = false) ∧
  r.err = none ∧ r.ms.lastErr = none

theorem setOptions_facts (t : Tx) (o : Options)
    (h1 : o.signers = []) (h2 : o.isMultiOp = false) :
    (t.setOptions o).isMultiOp = t.isMultiOp ∧ (t.setOptions o).err = t.err ∧
    (t.setOptions o).multiOpSource = t.multiOpSource ∧
    (t.setOptions o).optSigners = [] ∧ (t.setOptions o).ops = t.ops := by
  simp [Tx.setOptions, Tx.optSigners, h1, h2]

theorem Pay_session (ms : MicroStellar) (src s tgt amt : String) (asset : Asset)
    (options : List Options) (resolver : PathResolver) (t : Tx)
    (ht : ms.tx = some t) (hm : t.isMultiOp = true) (he : t.err = none)
    (hsrc : t.multiOpSource = src) (hos : t.optSigners = [])
    (hsig : ∀ o ∈ options, o.signers = []) (hmo : ∀ o ∈ options, o.isMultiOp = false)
    (hva : asset.validate = none) (hvs : ValidAddressOrSeed s = true)
    (hvt : ValidAddressOrSeed tgt = true)
    (hpp : payPathOk tgt asset amt options resolver = true) :
    StepOk src (t.ops ++ [OpCall.builtOp (.pay s tgt amt asset options resolver)])
      (ms.Pay s tgt amt asset options resolver) := by
  have hgt : ms.getTx = t := getTx_of_some ms t ht
  cases options with
  | nil =>
      have hT := opTail_session ms t s (.payment tgt asset amt) t ht hm he
      have hbuild := Tx.build_err_none t s (.payment tgt asset amt) he
      refine ⟨⟨t.build s (.payment tgt asset amt), ?_, ?_, ?_, ?_, ?_, ?_⟩, ?_, ?_, ?_⟩ <;>
        simp [MicroStellar.Pay, hva, hvs, hvt, hgt, hT, hbuild, OpCall.builtOp,
              hm, he, hsrc, hos, Tx.optSigners] <;>
        simp [Tx.optSigners] at hos <;> simp [hos]
  | cons o rest =>
      have h1 : o.signers = [] := hsig o (by simp)
      have h2 : o.isMultiOp = false := hmo o (by simp)
      obtain ⟨hm1, he1, hsrc1, hos1, hops1⟩ := setOptions_facts t o h1 h2
      have hm1t : (t.setOptions o).isMultiOp = true := hm1.trans hm
      have he1t : (t.setOptions o).err = none := he1.trans he
      have hstore : ms.storeTx (t.setOptions o) = { ms with tx := some (t.setOptions o) } :=
        storeTx_of_some ms t _ ht
      have ht1 : ({ ms with tx := some (t.setOptions o) } : MicroStellar).tx
          = some (t.setOptions o) := rfl
      cases hsa : o.sendAsset with
      | none =>
          have hT := opTail_session { ms with tx := some (t.setOptions o) } (t.setOptions o)
            s (.payment tgt asset amt) (t.setOptions o) ht1 hm1t he1t
          have hbuild := Tx.build_err_none (t.setOptions o) s (.payment tgt asset amt) he1t
          refine ⟨⟨(t.setOptions o).build s (.payment tgt asset amt), ?_, ?_, ?_, ?_, ?_, ?_⟩,
              ?_, ?_, ?_⟩ <;>
            simp [MicroStellar.Pay, hva, hvs, hvt, hgt, hstore, hsa, hT, hbuild,
                  OpCall.builtOp, hm1t, he1t, hsrc1, hsrc, hos1, hops1, Tx.optSigners] <;>
            simpa [Tx.optSigners] using hos1
      | some sa =>
          by_cases hp : o.path = []
          case neg =>
              have hT := opTail_session { ms with tx := some (t.setOptions o) } (t.setOptions o)
                s (.pathPayment tgt asset amt sa o.maxAmount o.path) (t.setOptions o) ht1 hm1t he1t
              have hbuild := Tx.build_err_none (t.setOptions o) s
                (.pathPayment tgt asset amt sa o.maxAmount o.path) he1t
              refine ⟨⟨(t.setOptions o).build s (.pathPayment tgt asset amt sa o.maxAmount o.path),
                  ?_, ?_, ?_, ?_, ?_, ?_⟩, ?_, ?_, ?_⟩ <;>
                simp [MicroStellar.Pay, hva, hvs, hvt, hgt, hstore, hsa, hp, hT, hbuild,
                      OpCall.builtOp, hm1t, he1t, hsrc1, hsrc, hos1, hops1, Tx.optSigners] <;>
                simpa [Tx.optSigners] using hos1
          case pos =>
              simp [payPathOk, hsa, hp] at hpp
              obtain ⟨hq, hres⟩ := hpp
              rcases hr : resolver o.sourceAddress tgt asset amt sa o.maxAmount with e | ps
              · rw [hr] at hres; simp at hres
              · cases ps with
                | nil => rw [hr] at hres; simp at hres
                | cons p ps =>
                    have hT := opTail_session { ms with tx := some (t.setOptions o) }
                      (t.setOptions o) s (.pathPayment tgt asset amt sa o.maxAmount p.hops)
                      (t.setOptions o) ht1 hm1t he1t
                    have hbuild := Tx.build_err_none (t.setOptions o) s
                      (.pathPayment tgt asset amt sa o.maxAmount p.hops) he1t
                    refine ⟨⟨(t.setOptions o).build s
                        (.pathPayment tgt asset amt sa o.maxAmount p.hops),
                        ?_, ?_, ?_, ?_, ?_, ?_⟩, ?_, ?_, ?_⟩ <;>
                      simp [MicroStellar.Pay, hva, hvs, hvt, hgt, hstore, hsa, hp, hq, hr, hT,
                            hbuild, OpCall.builtOp, hm1t, he1t, hsrc1, hsrc, hos1, hops1,
                            Tx.optSigners, NetEvent.isSubmission] <;>
                      simpa [Tx.optSigners] using hos1

theorem runCall_session (ms : MicroStellar) (src : String) (acc : List BuiltOp) (c : OpCall)
    (hinv : SessionInv src acc ms) (hok : c.ok = true)
    (hb : ∀ o ∈ c.bundles, o.signers = [] ∧ o.isMultiOp = false) :
    StepOk src (acc ++ [c.builtOp]) (runCall ms c) := by
  obtain ⟨t, ht, hm, he, hsrc, hos, hops⟩ := hinv
  cases c with
  | fundAccount s tgt a o =>
      simp only [OpCall.ok, Bool.and_eq_true] at hok
      simp only [OpCall.bundles] at hb
      obtain ⟨t2, h1, h2, h3, h4, h5, h6, h7, h8, h9⟩ :=
        stdOp_session ms src s o (.createAccount tgt a) t ht hm he hsrc hos
          (fun x hx => (hb x hx).1) (fun x hx => (hb x hx).2)
      refine ⟨⟨t2, ?_, h2, h3, h4, h5, ?_⟩, ?_, ?_, ?_⟩ <;>
        simp [runCall, MicroStellar.FundAccount, hok.1, hok.2, h1, h6, h7, h8, h9,
              OpCall.builtOp, hops]
  | pay s tgt a asset o r =>
      simp only [OpCall.ok, Bool.and_eq_true, beq_iff_eq] at hok
      simp only [OpCall.bundles] at hb
      have hP := Pay_session ms src s tgt a asset o r t ht hm he hsrc hos
        (fun x hx => (hb x hx).1) (fun x hx => (hb x hx).2)
        hok.1.1.1 hok.1.1.2 hok.1.2 hok.2
      simpa [runCall, hops] using hP
  | createTrustLine s asset limit o =>
      simp only [OpCall.ok, Bool.and_eq_true, beq_iff_eq] at hok
      simp only [OpCall.bundles] at hb
      by_cases hl : (limit == "") = true
      · obtain ⟨t2, h1, h2, h3, h4, h5, h6, h7, h8, h9⟩ :=
          stdOp_session ms src s o (.trust asset.code asset.issuer none) t ht hm he hsrc hos
            (fun x hx => (hb x hx).1) (fun x hx => (hb x hx).2)
        refine ⟨⟨t2, ?_, h2, h3, h4, h5, ?_⟩, ?_, ?_, ?_⟩ <;>
          simp [runCall, MicroStellar.CreateTrustLine, hok.1, hok.2, hl, h1, h6, h7, h8, h9,
                OpCall.builtOp, hops]
      · obtain ⟨t2, h1, h2, h3, h4, h5, h6, h7, h8, h9⟩ :=
          stdOp_session ms src s o (.trust asset.code asset.issuer (some limit)) t ht hm he hsrc hos
            (fun x hx => (hb x hx).1) (fun x hx => (hb x hx).2)
        refine ⟨⟨t2, ?_, h2, h3, h4, h5, ?_⟩, ?_, ?_, ?_⟩ <;>
          simp [runCall, MicroStellar.CreateTrustLine, hok.1, hok.2, hl, h1, h6, h7, h8, h9,
                OpCall.builtOp, hops]
  | removeTrustLine s asset o =>
      simp only [OpCall.ok, Bool.and_eq_true, beq_iff_eq] at hok
      simp only [OpCall.bundles] at hb
      obtain ⟨t2, h1, h2, h3, h4, h5, h6, h7, h8, h9⟩ :=
        stdOp_session ms src s o (.removeTrust asset.code asset.issuer) t ht hm he hsrc hos
          (fun x hx => (hb x hx).1) (fun x hx => (hb x hx).2)
      refine ⟨⟨t2, ?_, h2, h3, h4, h5, ?_⟩, ?_, ?_, ?_⟩ <;>
        simp [runCall, MicroStellar.RemoveTrustLine, hok.1, hok.2, h1, h6, h7, h8, h9,
              OpCall.builtOp, hops]
  | allowTrust s addr code auth o =>
      simp only [OpCall.ok, Bool.and_eq_true] at hok
      simp only [OpCall.bundles] at hb
      obtain ⟨t2, h1, h2, h3, h4, h5, h6, h7, h8, h9⟩ :=
        stdOp_session ms src s o (.allowTrust addr code auth) t ht hm he hsrc hos
          (fun x hx => (hb x hx).1) (fun x hx => (hb x hx).2)
      refine ⟨⟨t2, ?_, h2, h3, h4, h5, ?_⟩, ?_, ?_, ?_⟩ <;>
        simp [runCall, MicroStellar.AllowTrust, hok.1, hok.2, h1, h6, h7, h8, h9,
              OpCall.builtOp, hops]
  | setMasterWeight s w o =>
      simp only [OpCall.ok] at hok
      simp only [OpCall.bundles] at hb
      obtain ⟨t2, h1, h2, h3, h4, h5, h6, h7, h8, h9⟩ :=
        stdOp_session ms src s o (.masterWeight w) t ht hm he hsrc hos
          (fun x hx => (hb x hx).1) (fun x hx => (hb x hx).2)
      refine ⟨⟨t2, ?_, h2, h3, h4, h5, ?_⟩, ?_, ?_, ?_⟩ <;>
        simp [runCall, MicroStellar.SetMasterWeight, hok, h1, h6, h7, h8, h9,
              OpCall.builtOp, hops]
  | setFlags s f o =>
      simp only [OpCall.ok] at hok
      simp only [OpCall.bundles] at hb
      obtain ⟨t2, h1, h2, h3, h4, h5, h6, h7, h8, h9⟩ :=
        stdOp_session ms src s o (.setFlags f) t ht hm he hsrc hos
          (fun x hx => (hb x hx).1) (fun x hx => (hb x hx).2)
      refine ⟨⟨t2, ?_, h2, h3, h4, h5, ?_⟩, ?_, ?_, ?_⟩ <;>
        simp [runCall, MicroStellar.SetFlags, hok, h1, h6, h7, h8, h9, OpCall.builtOp, hops]
  | clearFlags s f o =>
      simp only [OpCall.ok] at hok
      simp only [OpCall.bundles] at hb
      obtain ⟨t2, h1, h2, h3, h4, h5, h6, h7, h8, h9⟩ :=
        stdOp_session ms src s o (.clearFlags f) t ht hm he hsrc hos
          (fun x hx => (hb x hx).1) (fun x hx => (hb x hx).2)
      refine ⟨⟨t2, ?_, h2, h3, h4, h5, ?_⟩, ?_, ?_, ?_⟩ <;>
        simp [runCall, MicroStellar.ClearFlags, hok, h1, h6, h7, h8, h9, OpCall.builtOp, hops]
  | setHomeDomain s d o =>
      simp only [OpCall.ok] at hok
      simp only [OpCall.bundles] at hb
      obtain ⟨t2, h1, h2, h3, h4, h5, h6, h7, h8, h9⟩ :=
        stdOp_session ms src s o (.homeDomain d) t ht hm he hsrc hos
          (fun x hx => (hb x hx).1) (fun x hx => (hb x hx).2)
      refine ⟨⟨t2, ?_, h2, h3, h4, h5, ?_⟩, ?_, ?_, ?_⟩ <;>
        simp [runCall, MicroStellar.SetHomeDomain, hok, h1, h6, h7, h8, h9, OpCall.builtOp, hops]
  | addSigner s sg w o =>
      simp only [OpCall.ok, Bool.and_eq_true] at hok
      simp only [OpCall.bundles] at hb
      obtain ⟨t2, h1, h2, h3, h4, h5, h6, h7, h8, h9⟩ :=
        stdOp_session ms src s o (.addSigner sg w) t ht hm he hsrc hos
          (fun x hx => (hb x hx).1) (fun x hx => (hb x hx).2)
      refine ⟨⟨t2, ?_, h2, h3, h4, h5, ?_⟩, ?_, ?_, ?_⟩ <;>
        simp [runCall, MicroStellar.AddSigner, hok.1, hok.2, h1, h6, h7, h8, h9,
              OpCall.builtOp, hops]
  | removeSigner s sg o =>
      simp only [OpCall.ok, Bool.and_eq_true] at hok
      simp only [OpCall.bundles] at hb
      obtain ⟨t2, h1, h2, h3, h4, h5, h6, h7, h8, h9⟩ :=
        stdOp_session ms src s o (.removeSigner sg) t ht hm he hsrc hos
          (fun x hx => (hb x hx).1) (fun x hx => (hb x hx).2)
      refine ⟨⟨t2, ?_, h2, h3, h4, h5, ?_⟩, ?_, ?_, ?_⟩ <;>
        simp [runCall, MicroStellar.RemoveSigner, hok.1, hok.2, h1, h6, h7, h8, h9,
              OpCall.builtOp, hops]
  | setThresholds s l m h o =>
      simp only [OpCall.ok] at hok
      simp only [OpCall.bundles] at hb
      obtain ⟨t2, h1, h2, h3, h4, h5, h6, h7, h8, h9⟩ :=
        stdOp_session ms src s o (.setThresholds l m h) t ht hm he hsrc hos
          (fun x hx => (hb x hx).1) (fun x hx => (hb x hx).2)
      refine ⟨⟨t2, ?_, h2, h3, h4, h5, ?_⟩, ?_, ?_, ?_⟩ <;>
        simp [runCall, MicroStellar.SetThresholds, hok, h1, h6, h7, h8, h9, OpCall.builtOp, hops]
  | setData s k v o =>
      simp only [OpCall.ok, Bool.and_eq_true, Bool.not_eq_true', beq_eq_false_iff_ne,
        decide_eq_false_iff_not] at hok
      simp only [OpCall.bundles] at hb
      obtain ⟨⟨⟨hv1, hk1⟩, hk2⟩, hv2⟩ := hok
      obtain ⟨t1, happ, hm1, he1, hsrc1, hos1, hops1⟩ :=
        applyFirst_session ms t o ht hos
          (fun x hx => (hb x hx).1) (fun x hx => (hb x hx).2)
      have hm1t : t1.isMultiOp = true := hm1.trans hm
      have he1t : t1.err = none := he1.trans he
      have hT := opTail_session { ms with tx := some t1 } t1 s (.setData k v) t1 rfl hm1t he1t
      have hbuild := Tx.build_err_none t1 s (.setData k v) he1t
      have hgt : ms.getTx = t := getTx_of_some ms t ht
      refine ⟨⟨t1.build s (.setData k v), ?_, ?_, ?_, ?_, ?_, ?_⟩, ?_, ?_, ?_⟩ <;>
        simp [runCall, MicroStellar.SetData, hv1, hk1, hk2, hv2, hgt, happ, hT, hbuild,
              hm1t, he1t, hsrc1.trans hsrc, hops1, hops, OpCall.builtOp, Tx.optSigners] <;>
        simpa [Tx.optSigners] using hos1
  | clearData s k o =>
      simp only [OpCall.ok, Bool.and_eq_true, Bool.not_eq_true', decide_eq_false_iff_not] at hok
      simp only [OpCall.bundles] at hb
      obtain ⟨hv1, hk2⟩ := hok
      obtain ⟨t1, happ, hm1, he1, hsrc1, hos1, hops1⟩ :=
        applyFirst_session ms t o ht hos
          (fun x hx => (hb x hx).1) (fun x hx => (hb x hx).2)
      have hm1t : t1.isMultiOp = true := hm1.trans hm
      have he1t : t1.err = none := he1.trans he
      have hT := opTail_session { ms with tx := some t1 } t1 s (.clearData k) t1 rfl hm1t he1t
      have hbuild := Tx.build_err_none t1 s (.clearData k) he1t
      have hgt : ms.getTx = t := getTx_of_some ms t ht
      refine ⟨⟨t1.build s (.clearData k), ?_, ?_, ?_, ?_, ?_, ?_⟩, ?_, ?_, ?_⟩ <;>
        simp [runCall, MicroStellar.ClearData, hv1, hk2, hgt, happ, hT, hbuild,
              hm1t, he1t, hsrc1.trans hsrc, hops1, hops, OpCall.builtOp, Tx.optSigners] <;>
        simpa [Tx.optSigners] using hos1

theorem runCalls_session (src : String) (calls : List OpCall) :
    ∀ (ms : MicroStellar) (acc : List BuiltOp), SessionInv src acc ms →
    (∀ c ∈ calls, c.ok = true) →
    (∀ c ∈ calls, ∀ o ∈ c.bundles, o.signers = [] ∧ o.isMultiOp = false) →
    SessionInv src (acc ++ calls.map OpCall.builtOp) (runCalls ms calls).1 ∧
    ∀ e ∈ (runCalls ms calls).2, e.isSubmission = false := by
  induction calls with
  | nil =>
      intro ms acc hinv _ _
      constructor
      · simpa [runCalls] using hinv
      · intro e he; simp [runCalls] at he
  | cons c rest ih =>
      intro ms acc hinv hok hb
      obtain ⟨hinv2, hev, herr, hlast⟩ :=
        runCall_session ms src acc c hinv (hok c (by simp)) (hb c (by simp))
      obtain ⟨hinv3, hev3⟩ := ih (runCall ms c).ms (acc ++ [c.builtOp]) hinv2
        (fun x hx => hok x (by simp [hx])) (fun x hx => hb x (by simp [hx]))
      constructor
      · simpa [runCalls, List.append_assoc] using hinv3
      · intro e he
        simp [runCalls] at he
        rcases he with h | h
        · exact hev e h
        · exact hev3 e h

theorem Start_session (ms : MicroStellar) (src : String) :
    SessionInv src [] (ms.Start src []) := by
  refine ⟨(newTx ms.networkName).withOptions ((mergeOptions []).MultiOp src),
    rfl, ?_, ?_, ?_, ?_, ?_⟩ <;>
    simp [newTx, Tx.withOptions, Tx.setOptions, mergeOptions, Opts, Options.MultiOp, Tx.optSigners]

theorem Submit_session (ms : MicroStellar) (src : String) (acc : List BuiltOp)
    (hinv : SessionInv src acc ms) (hseed : validSeed src = true) :
    (ms.Submit).events = [NetEvent.submission acc [src]] ∧
    (ms.Submit).err = none ∧ (ms.Submit).ms.tx = none ∧
    (ms.Submit).ms.lastErr = none ∧ (ms.Submit).ms.lastTx.isSome = true := by
  obtain ⟨t, ht, hm, he, hsrc, hos, hops⟩ := hinv
  have hgt : ms.getTx = t := getTx_of_some ms t ht
  have hsign : t.sign [] = { t with signatures := [src] } := by
    simp [Tx.sign, he, Tx.signerContext, hos, hm, hsrc, hseed]
  refine ⟨?_, ?_, ?_, ?_, ?_⟩ <;>
    simp [MicroStellar.Submit, hgt, hm, hsign, Tx.submit, he, hops, Tx.ErrOf,
          MicroStellar.setErr]

/-- C1: for every multi-operation session, after `Start(source)` opens it,
each subsequent operation method call appends exactly one operation to the
same open transaction and performs no network submission; when `Submit()`
is then called, exactly one network submission occurs and its envelope
contains all appended operations in call order. -/
theorem session_atomicity (name src : String) (calls : List OpCall)
    (hseed : validSeed src = true)
    (hok : ∀ c ∈ calls, c.ok = true)
    (hb : ∀ c ∈ calls, ∀ o ∈ c.bundles, o.signers = [] ∧ o.isMultiOp = false) :
    (∀ e ∈ (runCalls ((New name []).Start src []) calls).2, e.isSubmission = false) ∧
    (∃ t, (runCalls ((New name []).Start src []) calls).1.tx = some t ∧
          t.ops = calls.map OpCall.builtOp) ∧
    ((runCalls ((New name []).Start src []) calls).1.Submit).events =
      [NetEvent.submission (calls.map OpCall.builtOp) [src]] ∧
    ((runCalls ((New name []).Start src []) calls).1.Submit).err = none := by
  obtain ⟨hinv, hev⟩ := runCalls_session src calls ((New name []).Start src []) []
    (Start_session _ src) hok hb
  simp only [List.nil_append] at hinv
  obtain ⟨hevs, herrs, htxn, hlast, hsome⟩ := Submit_session _ src _ hinv hseed
  refine ⟨hev, ?_, hevs, herrs⟩
  obtain ⟨t, h1, _, _, _, _, h6⟩ := hinv
  exact ⟨t, h1, h6⟩

/-- A resolver used by concrete examples; it is never consulted by them. -/
def demoResolver : PathResolver := fun _ _ _ _ _ _ => .ok []

/-- A concrete session: set flags, a direct payment, attach data. -/
def demoCalls : List OpCall :=
  [ .setFlags "SABC" 1 [],
    .pay "SABC" "GDEF" "2000" NativeAsset [] demoResolver,
    .setData "SABC" "key" [104, 105] [] ]

theorem session_atomicity_witness :
    (∀ e ∈ (runCalls ((New "fake" []).Start "SABC" []) demoCalls).2, e.isSubmission = false) ∧
    (∃ t, (runCalls ((New "fake" []).Start "SABC" []) demoCalls).1.tx = some t ∧
          t.ops = demoCalls.map OpCall.builtOp) ∧
    ((runCalls ((New "fake" []).Start "SABC" []) demoCalls).1.Submit).events =
      [NetEvent.submission (demoCalls.map OpCall.builtOp) ["SABC"]] ∧
    ((runCalls ((New "fake" []).Start "SABC" []) demoCalls).1.Submit).err = none :=
  session_atomicity "fake" "SABC" demoCalls (by decide) (by decide) (by decide)

theorem Tx.sign_ok (tx : Tx) (keys : List String) (he : tx.err = none)
    (hall : (tx.signerContext keys).all validSeed = true) :
    tx.sign keys = { tx with signatures := tx.signerContext keys } := by
  simp only [List.all_eq_true] at hall
  simp [Tx.sign, he]
  intro x hx
  exact hall x hx

theorem applyFirst_implicit (ms : MicroStellar) (t : Tx) (options : List Options)
    (hms : ms.tx = none) :
    ms.applyFirstOptions t options =
      (match options with | o :: _ => t.setOptions o | [] => t, ms) := by
  cases options <;> simp [MicroStellar.applyFirstOptions, MicroStellar.storeTx, hms]

theorem opTail_implicit (ms : MicroStellar) (tx : Tx) (s : String) (op : Operation)
    (hms : ms.tx = none) (hmo : tx.isMultiOp = false) (he : tx.err = none)
    (hall : (tx.signerContext [s]).all validSeed = true) :
    (ms.opTail tx s op).events =
      [NetEvent.submission (tx.ops ++ [⟨s, op⟩]) (tx.signerContext [s])] ∧
    (ms.opTail tx s op).err = none ∧
    (ms.opTail tx s op).ms.tx = none ∧
    ((ms.opTail tx s op).ms.lastTx.map Tx.ops) = some (tx.ops ++ [⟨s, op⟩]) ∧
    (ms.opTail tx s op).ms.lastErr = none := by
  have hbuild := Tx.build_err_none tx s op he
  have hctx : (tx.build s op).signerContext [s] = tx.signerContext [s] := by
    rw [hbuild]; simp [Tx.signerContext, Tx.optSigners]
  have he2 : (tx.build s op).err = none := by rw [hbuild]; exact he
  have hall2 : ((tx.build s op).signerContext [s]).all validSeed = true := by
    rw [hctx]; exact hall
  have hsign := Tx.sign_ok (tx.build s op) [s] he2 hall2
  rw [hctx] at hsign
  have hmo2 : (tx.build s op).isMultiOp = false := by rw [hbuild]; exact hmo
  have hst : ∀ u, ms.storeTx u = ms := by
    intro u; simp [MicroStellar.storeTx, hms]
  refine ⟨?_, ?_, ?_, ?_, ?_⟩ <;>
    simp only [MicroStellar.opTail, MicroStellar.signAndSubmit, hst, hmo2, Bool.not_false,
      if_true, hsign] <;>
    simp [Tx.submit, hbuild, he, Tx.ErrOf, MicroStellar.setErr, hms]

/-- C2 counterexample: with a session open and holding one accumulated
operation, a second `Start` does not fail (it returns no error and leaves
the last-error field clear) and the open session is not left unchanged: it
is replaced by a fresh empty session, discarding the accumulated
operation. -/
theorem start_while_open_counterexample :
    ((((New "fake" []).Start "SABC" []).SetFlags "SABC" 1 []).ms.tx.map Tx.ops)
        = some [⟨"SABC", .setFlags 1⟩] ∧
    (((((New "fake" []).Start "SABC" []).SetFlags "SABC" 1 []).ms.Start "SXYZ" []).tx.map Tx.ops)
        = some [] ∧
    (((((New "fake" []).Start "SABC" []).SetFlags "SABC" 1 []).ms.Start "SXYZ" []).tx.map
        Tx.multiOpSource) = some "SXYZ" ∧
    (((((New "fake" []).Start "SABC" []).SetFlags "SABC" 1 []).ms.Start "SXYZ" []).lastErr)
        = none := by
  decide

/-- C2 amended: calling `Start` while a session is already open does not
fail: `Start` has no error result and leaves the last-error field
untouched, and it unconditionally replaces the handle's open transaction
with a fresh empty multi-op builder for the new source, discarding any
accumulated operations of the previous session. -/
theorem start_replaces_open_session (ms : MicroStellar) (src : String) (options : List Options) :
    (ms.Start src options).tx =
      some ((newTx ms.networkName).withOptions ((mergeOptions options).MultiOp src)) ∧
    ((ms.Start src options).tx.map Tx.ops) = some [] ∧
    (ms.Start src options).lastErr = ms.lastErr := by
  refine ⟨rfl, ?_, rfl⟩
  simp [MicroStellar.Start, newTx, Tx.withOptions, Tx.setOptions]

/-- C6: calling `Submit()` or `Payload()` when no session is open returns a
session-state error, performs no network submission, and leaves the
handle's session state (and last transaction) unchanged. -/
theorem submit_payload_without_session (ms : MicroStellar) (h : ms.tx = none) :
    (ms.Submit).err = some (.msg "cannot submit, not a multi-op transaction") ∧
    (ms.Submit).events = [] ∧
    (ms.Submit).ms.tx = none ∧
    (ms.Submit).ms.lastTx = ms.lastTx ∧
    (ms.Payload).err = some (.msg "cannot generate payload, Start not called") ∧
    (ms.Payload).events = [] ∧
    (ms.Payload).ms.tx = none ∧
    (ms.Payload).ms.lastTx = ms.lastTx := by
  have hgt : ms.getTx = newTx ms.networkName := by simp [MicroStellar.getTx, h]
  have hmo : (newTx ms.networkName).isMultiOp = false := by simp [newTx]
  refine ⟨?_, ?_, ?_, ?_, ?_, ?_, ?_, ?_⟩ <;>
    simp [MicroStellar.Submit, MicroStellar.Payload, hgt, hmo, MicroStellar.errStep,
          MicroStellar.setErr, h]

theorem submit_payload_without_session_witness :
    ((New "fake" []).Submit).err = some (.msg "cannot submit, not a multi-op transaction") ∧
    ((New "fake" []).Submit).events = [] ∧
    ((New "fake" []).Submit).ms.tx = none ∧
    ((New "fake" []).Submit).ms.lastTx = (New "fake" []).lastTx ∧
    ((New "fake" []).Payload).err = some (.msg "cannot generate payload, Start not called") ∧
    ((New "fake" []).Payload).events = [] ∧
    ((New "fake" []).Payload).ms.tx = none ∧
    ((New "fake" []).Payload).ms.lastTx = (New "fake" []).lastTx :=
  submit_payload_without_session (New "fake" []) rfl

/-- C8: with a valid seed source and no open session, `SetData` fails local
validation exactly when the key is empty, the key exceeds 64 bytes, or the
value exceeds 64 bytes; otherwise (in particular with a 64-byte key and a
64-byte value) it passes validation and the set-data operation is
constructed and submitted. -/
theorem setData_validation_bounds (ms : MicroStellar) (src key : String) (val : List UInt8)
    (hseed : validSeed src = true) (hms : ms.tx = none) :
    ((ms.SetData src key val []).err = none ↔
      ¬(key = "" ∨ key.utf8ByteSize > 64 ∨ val.length > 64)) ∧
    (¬(key = "" ∨ key.utf8ByteSize > 64 ∨ val.length > 64) →
      (ms.SetData src key val []).events =
        [NetEvent.submission [⟨src, .setData key val⟩] [src]]) := by
  have hv : ValidAddressOrSeed src = true := by
    simp [ValidAddressOrSeed, hseed]
  have hgt : ms.getTx = newTx ms.networkName := by simp [MicroStellar.getTx, hms]
  have happ := applyFirst_implicit ms (newTx ms.networkName) [] hms
  have hall : ((newTx ms.networkName).signerContext [src]).all validSeed = true := by
    simp [newTx, Tx.signerContext, Tx.optSigners, hseed]
  have hop := opTail_implicit ms (newTx ms.networkName) src (.setData key val) hms
    (by simp [newTx]) (by simp [newTx]) hall
  obtain ⟨he1, he2, he3, he4, he5⟩ := hop
  by_cases h1 : key = ""
  · simp [MicroStellar.SetData, hv, hgt, happ, h1, MicroStellar.errStep]
  · by_cases h2 : key.utf8ByteSize > 64
    · simp [MicroStellar.SetData, hv, hgt, happ, h1, h2, MicroStellar.errStep]
    · by_cases h3 : val.length > 64
      · simp [MicroStellar.SetData, hv, hgt, happ, h1, h2, h3, MicroStellar.errStep]
      · have hctx0 : (newTx ms.networkName).signerContext [src] = [src] := by
          simp [Tx.signerContext, Tx.optSigners, newTx]
        have hops0 : (newTx ms.networkName).ops = [] := rfl
        constructor
        · simp [MicroStellar.SetData, hv, hgt, happ, h1, h2, h3, he2]
        · intro _
          simp [MicroStellar.SetData, hv, hgt, happ, h1, h2, h3, he1, hctx0, hops0]

/-- A 64-byte key used to witness the data-field bounds. -/
def demoKey64 : String :=
  "aaaaaaaaaaaaaaaaaaaaaaaaaaaaaaaaaaaaaaaaaaaaaaaaaaaaaaaaaaaaaaaa"

theorem setData_validation_bounds_witness :
    (((New "fake" []).SetData "SABC" demoKey64 (List.replicate 64 97) []).err = none ↔
      ¬(demoKey64 = "" ∨ demoKey64.utf8ByteSize > 64 ∨
        (List.replicate 64 (97 : UInt8)).length > 64)) ∧
    (¬(demoKey64 = "" ∨ demoKey64.utf8ByteSize > 64 ∨
        (List.replicate 64 (97 : UInt8)).length > 64) →
      ((New "fake" []).SetData "SABC" demoKey64 (List.replicate 64 97) []).events =
        [NetEvent.submission [⟨"SABC", .setData demoKey64 (List.replicate 64 97)⟩] ["SABC"]]) :=
  setData_validation_bounds (New "fake" []) "SABC" demoKey64 (List.replicate 64 97)
    (by decide) rfl

/-- C9: in `SetData` and `ClearData`, a supplied options bundle is applied
to the active builder before the key and value length validation runs; so
inside an open session a call that fails validation returns an error and
still leaves the open transaction's options mutated by the bundle (its
operations unchanged). -/
theorem data_options_applied_before_validation (ms : MicroStellar) (src key : String)
    (val : List UInt8) (o : Options) (t : Tx)
    (ht : ms.tx = some t) (hv : ValidAddressOrSeed src = true) :
    (key = "" ∨ key.utf8ByteSize > 64 ∨ val.length > 64 →
      (ms.SetData src key val [o]).err.isSome = true ∧
      (ms.SetData src key val [o]).events = [] ∧
      (ms.SetData src key val [o]).ms.tx = some (t.setOptions o) ∧
      (t.setOptions o).options = some o ∧ (t.setOptions o).ops = t.ops) ∧
    (key.utf8ByteSize > 64 →
      (ms.ClearData src key [o]).err.isSome = true ∧
      (ms.ClearData src key [o]).events = [] ∧
      (ms.ClearData src key [o]).ms.tx = some (t.setOptions o)) := by
  have hgt : ms.getTx = t := getTx_of_some ms t ht
  have happ : ms.applyFirstOptions t [o] =
      (t.setOptions o, { ms with tx := some (t.setOptions o) }) := by
    simp [MicroStellar.applyFirstOptions, MicroStellar.storeTx, ht]
  have hopts : (t.setOptions o).options = some o := by simp [Tx.setOptions]
  have hops : (t.setOptions o).ops = t.ops := by simp [Tx.setOptions]
  by_cases h1 : key = ""
  · constructor
    · intro _
      refine ⟨?_, ?_, ?_, hopts, hops⟩ <;>
        simp [MicroStellar.SetData, hv, hgt, happ, h1, MicroStellar.errStep,
              MicroStellar.setErr]
    · intro hk
      rw [h1] at hk
      have h0 : ("" : String).utf8ByteSize = 0 := rfl
      rw [h0] at hk
      exact absurd hk (by omega)
  · constructor
    · intro hbad
      have h2 : key.utf8ByteSize > 64 ∨ val.length > 64 := by
        rcases hbad with h | h | h
        · exact absurd h h1
        · exact Or.inl h
        · exact Or.inr h
      rcases h2 with h2 | h2
      · refine ⟨?_, ?_, ?_, hopts, hops⟩ <;>
          simp [MicroStellar.SetData, hv, hgt, happ, h1, h2, MicroStellar.errStep,
                MicroStellar.setErr]
      · by_cases hk : key.utf8ByteSize > 64
        · refine ⟨?_, ?_, ?_, hopts, hops⟩ <;>
            simp [MicroStellar.SetData, hv, hgt, happ, h1, hk, MicroStellar.errStep,
                  MicroStellar.setErr]
        · refine ⟨?_, ?_, ?_, hopts, hops⟩ <;>
            simp [MicroStellar.SetData, hv, hgt, happ, h1, hk, h2, MicroStellar.errStep,
                  MicroStellar.setErr]
    · intro hk
      refine ⟨?_, ?_, ?_⟩ <;>
        simp [MicroStellar.ClearData, hv, hgt, happ, hk, MicroStellar.errStep,
              MicroStellar.setErr]

/-- The open session handle used by concrete examples. -/
def demoSession : MicroStellar := (New "fake" []).Start "SABC" []

/-- The builder the demo session holds. -/
def demoSessionTx : Tx := (newTx "fake").withOptions ((mergeOptions []).MultiOp "SABC")

/-- An options bundle carrying only a memo. -/
def demoOpts : Options := { memoText := "m" }

theorem data_options_applied_before_validation_witness :
    (("" : String) = "" ∨ ("" : String).utf8ByteSize > 64 ∨ ([] : List UInt8).length > 64 →
      (demoSession.SetData "SABC" "" [] [demoOpts]).err.isSome = true ∧
      (demoSession.SetData "SABC" "" [] [demoOpts]).events = [] ∧
      (demoSession.SetData "SABC" "" [] [demoOpts]).ms.tx
        = some (demoSessionTx.setOptions demoOpts) ∧
      (demoSessionTx.setOptions demoOpts).options = some demoOpts ∧
      (demoSessionTx.setOptions demoOpts).ops = demoSessionTx.ops) ∧
    (("" : String).utf8ByteSize > 64 →
      (demoSession.ClearData "SABC" "" [demoOpts]).err.isSome = true ∧
      (demoSession.ClearData "SABC" "" [demoOpts]).events = [] ∧
      (demoSession.ClearData "SABC" "" [demoOpts]).ms.tx
        = some (demoSessionTx.setOptions demoOpts)) :=
  data_options_applied_before_validation demoSession "SABC" "" [] demoOpts demoSessionTx
    rfl (by decide)

/-- C3: the signer-context asymmetry.  With no signers in the options
bundle, the transaction is signed with the source identifier; with at least
one supplied signer, the source's signature is not implicitly added and
only the supplied signers sign, so the call succeeds even when the source
is a public address rather than a seed.  The last two conjuncts state the
asymmetry for the signer context itself, which every operation method
hands to the sign-and-submit driver. -/
theorem signer_asymmetry (ms : MicroStellar) (src tgt amt : String) (asset : Asset)
    (o : Options) (resolver : PathResolver) (sgns : List String)
    (hms : ms.tx = none) (hva : asset.validate = none) (hvt : ValidAddressOrSeed tgt = true)
    (hmo : o.isMultiOp = false) (hsa : o.sendAsset = none) :
    (o.signers = [] → validSeed src = true →
      (ms.Pay src tgt amt asset [o] resolver).events =
        [NetEvent.submission [⟨src, .payment tgt asset amt⟩] [src]] ∧
      (ms.Pay src tgt amt asset [o] resolver).err = none) ∧
    (o.signers = sgns → sgns ≠ [] → sgns.all validSeed = true → validAddress src = true →
      (ms.Pay src tgt amt asset [o] resolver).events =
        [NetEvent.submission [⟨src, .payment tgt asset amt⟩] sgns] ∧
      (ms.Pay src tgt amt asset [o] resolver).err = none) ∧
    (∀ tx : Tx, tx.optSigners ≠ [] → ∀ keys, tx.signerContext keys = tx.optSigners) ∧
    (∀ tx : Tx, tx.optSigners = [] → tx.isMultiOp = false →
      ∀ keys, tx.signerContext keys = keys) := by
  have hgt : ms.getTx = newTx ms.networkName := by simp [MicroStellar.getTx, hms]
  have hst : ∀ u, ms.storeTx u = ms := by
    intro u; simp [MicroStellar.storeTx, hms]
  have hmo2 : ((newTx ms.networkName).setOptions o).isMultiOp = false := by
    simp [newTx, Tx.setOptions, hmo]
  have he2 : ((newTx ms.networkName).setOptions o).err = none := by
    simp [newTx, Tx.setOptions]
  have hops0 : ((newTx ms.networkName).setOptions o).ops = [] := by
    simp [newTx, Tx.setOptions]
  refine ⟨?_, ?_, ?_, ?_⟩
  · intro hs hseed
    have hvs : ValidAddressOrSeed src = true := by
      simp [ValidAddressOrSeed, hseed]
    have hctx : ((newTx ms.networkName).setOptions o).signerContext [src] = [src] := by
      simp [newTx, Tx.setOptions, Tx.signerContext, Tx.optSigners, hs, hmo]
    have hall : (((newTx ms.networkName).setOptions o).signerContext [src]).all validSeed
        = true := by
      rw [hctx]; simp [hseed]
    obtain ⟨he1, herr, _, _, _⟩ := opTail_implicit ms ((newTx ms.networkName).setOptions o)
      src (.payment tgt asset amt) hms hmo2 he2 hall
    constructor <;>
      simp [MicroStellar.Pay, hva, hvs, hvt, hgt, hst, hsa, he1, herr, hctx, hops0]
  · intro hs hne hall0 haddr
    have hvs : ValidAddressOrSeed src = true := by
      simp [ValidAddressOrSeed, haddr]
    have hctx : ((newTx ms.networkName).setOptions o).signerContext [src] = sgns := by
      simp [newTx, Tx.setOptions, Tx.signerContext, Tx.optSigners, hs, hne]
    have hall : (((newTx ms.networkName).setOptions o).signerContext [src]).all validSeed
        = true := by
      rw [hctx]; exact hall0
    obtain ⟨he1, herr, _, _, _⟩ := opTail_implicit ms ((newTx ms.networkName).setOptions o)
      src (.payment tgt asset amt) hms hmo2 he2 hall
    constructor <;>
      simp [MicroStellar.Pay, hva, hvs, hvt, hgt, hst, hsa, he1, herr, hctx, hops0]
  · intro tx hne keys
    simp [Tx.signerContext, hne]
  · intro tx hnil hmo3 keys
    simp [Tx.signerContext, hnil, hmo3]

/-- Credit assets and resolvers used by concrete examples. -/
def demoUSD : Asset := { code := "USD", issuer := "GISSUER", assetType := .credit4 }

def demoINR : Asset := { code := "INR", issuer := "GISSUER", assetType := .credit4 }

def demoPathResult : PathResult :=
  { hops := [demoUSD], sourceAmount := "1", destinationAmount := "2" }

def demoResolverOk : PathResolver := fun _ _ _ _ _ _ => .ok [demoPathResult]

def demoResolverEmpty : PathResolver := fun _ _ _ _ _ _ => .ok []

/-- The options bundle with one explicit signer seed. -/
def demoSignerOpts : Options := { signers := ["SKEY"] }

theorem signer_asymmetry_witness :
    (demoSignerOpts.signers = [] → validSeed "GPAYER" = true →
      ((New "fake" []).Pay "GPAYER" "GDEST" "10" NativeAsset [demoSignerOpts]
        demoResolverEmpty).events =
        [NetEvent.submission [⟨"GPAYER", .payment "GDEST" NativeAsset "10"⟩] ["GPAYER"]] ∧
      ((New "fake" []).Pay "GPAYER" "GDEST" "10" NativeAsset [demoSignerOpts]
        demoResolverEmpty).err = none) ∧
    (demoSignerOpts.signers = ["SKEY"] → (["SKEY"] : List String) ≠ [] →
      (["SKEY"] : List String).all validSeed = true → validAddress "GPAYER" = true →
      ((New "fake" []).Pay "GPAYER" "GDEST" "10" NativeAsset [demoSignerOpts]
        demoResolverEmpty).events =
        [NetEvent.submission [⟨"GPAYER", .payment "GDEST" NativeAsset "10"⟩] ["SKEY"]] ∧
      ((New "fake" []).Pay "GPAYER" "GDEST" "10" NativeAsset [demoSignerOpts]
        demoResolverEmpty).err = none) ∧
    (∀ tx : Tx, tx.optSigners ≠ [] → ∀ keys, tx.signerContext keys = tx.optSigners) ∧
    (∀ tx : Tx, tx.optSigners = [] → tx.isMultiOp = false →
      ∀ keys, tx.signerContext keys = keys) :=
  signer_asymmetry (New "fake" []) "GPAYER" "GDEST" "10" NativeAsset demoSignerOpts
    demoResolverEmpty ["SKEY"] rfl (by decide) (by decide) (by decide) rfl

/-- C4: in `Pay` with a send asset different from the destination asset and
no explicit hop list, if the path resolver returns zero candidate paths the
call fails with a no-paths-found error, no payment operation is appended to
the builder, and no network submission occurs (the only network event is
the read-only resolver query). -/
theorem pay_no_path_found (ms : MicroStellar) (src tgt amt : String) (asset sendAsset : Asset)
    (o : Options) (resolver : PathResolver)
    (hva : asset.validate = none) (hvs : ValidAddressOrSeed src = true)
    (hvt : ValidAddressOrSeed tgt = true)
    (hsa : o.sendAsset = some sendAsset) (hp : o.path = [])
    (hq : validAddress o.sourceAddress = true)
    (hr : resolver o.sourceAddress tgt asset amt sendAsset o.maxAmount = Except.ok []) :
    (ms.Pay src tgt amt asset [o] resolver).err =
      some (.msg ("no paths found from " ++ sendAsset.code ++ " to " ++ asset.code)) ∧
    ((ms.Pay src tgt amt asset [o] resolver).events.filter NetEvent.isSubmission) = [] ∧
    ((ms.Pay src tgt amt asset [o] resolver).ms.tx.map Tx.ops) = (ms.tx.map Tx.ops) := by
  cases hmst : ms.tx with
  | none =>
      have hgt : ms.getTx = newTx ms.networkName := by simp [MicroStellar.getTx, hmst]
      have hst : ∀ u, ms.storeTx u = ms := by
        intro u; simp [MicroStellar.storeTx, hmst]
      refine ⟨?_, ?_, ?_⟩ <;>
        simp [MicroStellar.Pay, hva, hvs, hvt, hgt, hst, hsa, hp, hq, hr,
              MicroStellar.errStepEv, MicroStellar.setErr, NetEvent.isSubmission, hmst]
  | some t =>
      have hgt : ms.getTx = t := getTx_of_some ms t hmst
      have hst : ms.storeTx (t.setOptions o) = { ms with tx := some (t.setOptions o) } :=
        storeTx_of_some ms t _ hmst
      have hopsx : (t.setOptions o).ops = t.ops := by simp [Tx.setOptions]
      refine ⟨?_, ?_, ?_⟩ <;>
        simp [MicroStellar.Pay, hva, hvs, hvt, hgt, hst, hsa, hp, hq, hr,
              MicroStellar.errStepEv, MicroStellar.setErr, NetEvent.isSubmission, hmst, hopsx]

/-- The path-payment options bundle that triggers automatic discovery. -/
def demoFindPathOpts : Options :=
  { sendAsset := some demoUSD, maxAmount := "20", sourceAddress := "GSRC" }

theorem pay_no_path_found_witness :
    ((New "fake" []).Pay "SPAYER" "GDEST" "2000" demoINR [demoFindPathOpts]
        demoResolverEmpty).err =
      some (.msg ("no paths found from " ++ demoUSD.code ++ " to " ++ demoINR.code)) ∧
    (((New "fake" []).Pay "SPAYER" "GDEST" "2000" demoINR [demoFindPathOpts]
        demoResolverEmpty).events.filter NetEvent.isSubmission) = [] ∧
    (((New "fake" []).Pay "SPAYER" "GDEST" "2000" demoINR [demoFindPathOpts]
        demoResolverEmpty).ms.tx.map Tx.ops) = ((New "fake" []).tx.map Tx.ops) :=
  pay_no_path_found (New "fake" []) "SPAYER" "GDEST" "2000" demoINR demoUSD
    demoFindPathOpts demoResolverEmpty (by decide) (by decide) (by decide) rfl rfl
    (by decide) rfl

/-- C5: in a path payment, a non-empty explicit hop list in the options
bundle is used verbatim, in order, as the conversion path with no resolver
query; otherwise the hop list of the first candidate returned by the
resolver is used, in its returned order. -/
theorem pay_path_selection (ms : MicroStellar) (src tgt amt : String) (asset sendAsset : Asset)
    (o : Options) (resolver : PathResolver) (p : PathResult) (ps : List PathResult)
    (hms : ms.tx = none) (hva : asset.validate = none) (hvt : ValidAddressOrSeed tgt = true)
    (hseed : validSeed src = true) (hsig : o.signers = []) (hmo : o.isMultiOp = false)
    (hsa : o.sendAsset = some sendAsset) :
    (o.path ≠ [] →
      (ms.Pay src tgt amt asset [o] resolver).events =
        [NetEvent.submission
          [⟨src, .pathPayment tgt asset amt sendAsset o.maxAmount o.path⟩] [src]]) ∧
    (o.path = [] → validAddress o.sourceAddress = true →
      resolver o.sourceAddress tgt asset amt sendAsset o.maxAmount = Except.ok (p :: ps) →
      (ms.Pay src tgt amt asset [o] resolver).events =
        [NetEvent.pathQuery o.sourceAddress tgt,
         NetEvent.submission
          [⟨src, .pathPayment tgt asset amt sendAsset o.maxAmount p.hops⟩] [src]]) := by
  have hvs : ValidAddressOrSeed src = true := by
    simp [ValidAddressOrSeed, hseed]
  have hgt : ms.getTx = newTx ms.networkName := by simp [MicroStellar.getTx, hms]
  have hst : ∀ u, ms.storeTx u = ms := by
    intro u; simp [MicroStellar.storeTx, hms]
  have hmo2 : ((newTx ms.networkName).setOptions o).isMultiOp = false := by
    simp [newTx, Tx.setOptions, hmo]
  have he2 : ((newTx ms.networkName).setOptions o).err = none := by
    simp [newTx, Tx.setOptions]
  have hops0 : ((newTx ms.networkName).setOptions o).ops = [] := by
    simp [newTx, Tx.setOptions]
  have hctx1 : ((newTx ms.networkName).setOptions o).signerContext [src] = [src] := by
    simp [newTx, Tx.setOptions, Tx.signerContext, Tx.optSigners, hsig, hmo]
  have hall : (((newTx ms.networkName).setOptions o).signerContext [src]).all validSeed
      = true := by
    rw [hctx1]; simp [hseed]
  constructor
  · intro hp
    obtain ⟨he1, herr, _, _, _⟩ := opTail_implicit ms ((newTx ms.networkName).setOptions o)
      src (.pathPayment tgt asset amt sendAsset o.maxAmount o.path) hms hmo2 he2 hall
    simp [MicroStellar.Pay, hva, hvs, hvt, hgt, hst, hsa, hp, he1, hctx1, hops0]
  · intro hp hq hr
    obtain ⟨he1, herr, _, _, _⟩ := opTail_implicit ms ((newTx ms.networkName).setOptions o)
      src (.pathPayment tgt asset amt sendAsset o.maxAmount p.hops) hms hmo2 he2 hall
    simp [MicroStellar.Pay, hva, hvs, hvt, hgt, hst, hsa, hp, hq, hr, he1, hctx1, hops0]

theorem pay_path_selection_witness :
    (demoFindPathOpts.path ≠ [] →
      ((New "fake" []).Pay "SPAYER" "GDEST" "2000" demoINR [demoFindPathOpts]
          demoResolverOk).events =
        [NetEvent.submission
          [⟨"SPAYER", .pathPayment "GDEST" demoINR "2000" demoUSD
            demoFindPathOpts.maxAmount demoFindPathOpts.path⟩] ["SPAYER"]]) ∧
    (demoFindPathOpts.path = [] → validAddress demoFindPathOpts.sourceAddress = true →
      demoResolverOk demoFindPathOpts.sourceAddress "GDEST" demoINR "2000" demoUSD
          demoFindPathOpts.maxAmount = Except.ok (demoPathResult :: []) →
      ((New "fake" []).Pay "SPAYER" "GDEST" "2000" demoINR [demoFindPathOpts]
          demoResolverOk).events =
        [NetEvent.pathQuery demoFindPathOpts.sourceAddress "GDEST",
         NetEvent.submission
          [⟨"SPAYER", .pathPayment "GDEST" demoINR "2000" demoUSD
            demoFindPathOpts.maxAmount demoPathResult.hops⟩] ["SPAYER"]]) :=
  pay_path_selection (New "fake" []) "SPAYER" "GDEST" "2000" demoINR demoUSD
    demoFindPathOpts demoResolverOk demoPathResult [] rfl (by decide) (by decide)
    (by decide) rfl rfl rfl

theorem signAndSubmit_lastErr (ms : MicroStellar) (tx : Tx) (ks : List String) :
    (ms.signAndSubmit tx ks).ms.lastErr = (ms.signAndSubmit tx ks).err := rfl

theorem opTail_lastErr (ms : MicroStellar) (tx : Tx) (s : String) (op : Operation) :
    (ms.opTail tx s op).ms.lastErr = (ms.opTail tx s op).err := rfl

theorem stdOp_lastErr (ms : MicroStellar) (s : String) (options : List Options)
    (op : Operation) :
    (ms.stdOp s options op).ms.lastErr = (ms.stdOp s options op).err := by
  simp only [MicroStellar.stdOp]
  exact opTail_lastErr _ _ _ _

theorem runCall_lastErr (ms : MicroStellar) (c : OpCall) :
    (runCall ms c).ms.lastErr = (runCall ms c).err := by
  cases c <;>
    simp only [runCall, MicroStellar.FundAccount, MicroStellar.Pay,
      MicroStellar.CreateTrustLine, MicroStellar.RemoveTrustLine, MicroStellar.AllowTrust,
      MicroStellar.SetMasterWeight, MicroStellar.SetFlags, MicroStellar.ClearFlags,
      MicroStellar.SetHomeDomain, MicroStellar.AddSigner, MicroStellar.RemoveSigner,
      MicroStellar.SetThresholds, MicroStellar.SetData, MicroStellar.ClearData] <;>
    (repeat' split) <;>
    simp [MicroStellar.errStep, MicroStellar.errStepEv, MicroStellar.setErr,
      stdOp_lastErr, opTail_lastErr, signAndSubmit_lastErr, MicroStellar.opTail,
      MicroStellar.stdOp]

theorem Submit_lastErr (ms : MicroStellar) :
    (ms.Submit).ms.lastErr = (ms.Submit).err := by
  simp only [MicroStellar.Submit]
  split <;> simp [MicroStellar.errStep, MicroStellar.setErr]

theorem Payload_lastErr (ms : MicroStellar) :
    (ms.Payload).ms.lastErr = (ms.Payload).err := by
  simp only [MicroStellar.Payload]
  split <;> simp [MicroStellar.setErr]

/-- C7 counterexample: `Start` is a public mutating operation method that
does not update the handle's last-error field.  After a failed call leaves
a last error on the handle, a subsequent `Start` leaves that error in
place instead of clearing it, so `Err()` still reports the stale error
although `Start` itself reported no failure. -/
theorem start_does_not_update_last_error :
    ((((New "fake" []).SetFlags "X" 1 []).ms.lastErr).isSome = true) ∧
    ((((New "fake" []).SetFlags "X" 1 []).ms.Start "SABC" []).lastErr
      = (((New "fake" []).SetFlags "X" 1 []).ms.lastErr)) ∧
    (((((New "fake" []).SetFlags "X" 1 []).ms.Start "SABC" []).Err).isSome = true) := by
  decide

/-- C7 amended: every public mutating operation method except `Start`
updates the handle's last-error field on every call — it is set to exactly
the returned error, hence cleared to none on success, and `Err()` after a
successful call returns none; `Start` leaves the last-error field
unchanged. -/
theorem last_error_update (ms : MicroStellar) (src : String) (options : List Options)
    (c : OpCall) :
    (ms.Start src options).lastErr = ms.lastErr ∧
    (runCall ms c).ms.lastErr = (runCall ms c).err ∧
    (ms.Submit).ms.lastErr = (ms.Submit).err ∧
    (ms.Payload).ms.lastErr = (ms.Payload).err :=
  ⟨rfl, runCall_lastErr ms c, Submit_lastErr ms, Payload_lastErr ms⟩

/-- C10: `Response()` dereferences the handle's last-transaction field
without a nil check: on a fresh handle the last transaction is nil and the
call faults (modelled by the outer `none`); the call is safe exactly when
the last transaction has been set, which every sign-and-submit completion
and every session-closing `Submit` or `Payload` does. -/
theorem response_nil_dereference (name : String) (params : List Params) :
    (New name params).lastTx = none ∧
    (New name params).Response = none ∧
    (∀ ms : MicroStellar, ms.Response = none ↔ ms.lastTx = none) ∧
    (∀ (ms : MicroStellar) (tx : Tx) (ks : List String),
      ((ms.signAndSubmit tx ks).ms.lastTx).isSome = true) ∧
    (∀ ms : MicroStellar, (ms.getTx).isMultiOp = true →
      ((ms.Submit).ms.lastTx).isSome = true ∧ ((ms.Payload).ms.lastTx).isSome = true) := by
  refine ⟨rfl, rfl, ?_, ?_, ?_⟩
  · intro ms
    cases h : ms.lastTx <;> simp [MicroStellar.Response, h]
  · intro ms tx ks
    rfl
  · intro ms h
    constructor <;>
      simp [MicroStellar.Submit, MicroStellar.Payload, h, MicroStellar.setErr]

theorem response_nil_dereference_witness :
    (New "fake" []).lastTx = none ∧
    (New "fake" []).Response = none ∧
    (∀ ms : MicroStellar, ms.Response = none ↔ ms.lastTx = none) ∧
    (∀ (ms : MicroStellar) (tx : Tx) (ks : List String),
      ((ms.signAndSubmit tx ks).ms.lastTx).isSome = true) ∧
    (∀ ms : MicroStellar, (ms.getTx).isMultiOp = true →
      ((ms.Submit).ms.lastTx).isSome = true ∧ ((ms.Payload).ms.lastTx).isSome = true) :=
  response_nil_dereference "fake" []
